import Mathlib

/-!
Shallow embedding of the WePlace client (`src/client_random/atlas-protocol/src/App.jsx`).

The app is a single React component tree:
* a static seed list `LOCATIONS` of five locations, each with `id`, `name`,
  `position`, `status` (`'stale'` or `'fresh'`) and `type`;
* top-level state in `App`: `locations`, `selectedId` (nullable), `balance`;
* panel-local state in `BountyPanel`: `formData` (`image`, `description`),
  `isVerifying`, `step` (0 Idle, 1 Scanning, 2 Cross-Referencing, 3 Verdict);
  `BountyPanel` is always rendered by `App` (it returns `null` when nothing is
  selected) so this state persists across selection changes and panel closes;
* `handleSubmit` schedules three `setTimeout` callbacks at 1500 ms, 3000 ms and
  4000 ms, the last of which calls `handleVerify(selectedLocation.id)` with the
  id captured at submit time, then resets the form.

We model wall-clock time in milliseconds (`Nat`), exactly the unit `setTimeout`
uses, and money as `ℚ`.  Scheduled callbacks live in an explicit timer queue;
`advanceTo t` fires, in queue order, every callback whose deadline has passed.
-/

namespace WePlace

/-- Location status, the source's `'fresh'` / `'stale'` strings. -/
inductive Status where
  | fresh
  | stale
deriving DecidableEq

/-- One record of the `LOCATIONS` seed list (App.jsx lines 23-29). -/
structure Location where
  id : Nat
  name : String
  position : ℚ × ℚ × ℚ
  status : Status
  type : String
deriving DecidableEq

/-- `INITIAL_BALANCE = 124.50` (App.jsx line 20). -/
def INITIAL_BALANCE : ℚ := 249 / 2

/-- `BOUNTY_REWARD = 15.00` (App.jsx line 21). -/
def BOUNTY_REWARD : ℚ := 15

/-- The hardcoded seed registry (App.jsx lines 23-29). -/
def LOCATIONS : List Location :=
  [ ⟨1, "The Grand Cafe", (0, 1/2, 0), Status.stale, "cafe"⟩,
    ⟨2, "Blackwell\x27s Books", (-4, 1/2, -2), Status.fresh, "shop"⟩,
    ⟨3, "Radcliffe Camera", (3, 1/2, -3), Status.fresh, "landmark"⟩,
    ⟨4, "Covered Market", (2, 1/2, 4), Status.fresh, "market"⟩,
    ⟨5, "Ashmolean Museum", (-3, 1/2, 5), Status.fresh, "museum"⟩ ]

/-- The three callbacks `handleSubmit` hands to `setTimeout`
(App.jsx lines 206-216): `setStep(2)`, `setStep(3)`, and the completion
closure that calls `onVerify` with the captured target id and resets the
form. -/
inductive TimerAction where
  | setStep2
  | setStep3
  | finish (targetId : Nat)
deriving DecidableEq

/-- A scheduled callback: absolute deadline in milliseconds plus its action. -/
structure Timer where
  fireAt : Nat
  action : TimerAction
deriving DecidableEq

/-- The whole mutable state of the component tree: `App`'s three `useState`
cells, `BountyPanel`'s three `useState` cells (which persist for the process
lifetime, since `App` always renders `BountyPanel`), the wall clock, and the
pending `setTimeout` queue. -/
structure SystemState where
  locations : List Location
  selectedId : Option Nat
  balance : ℚ
  image : Option String
  description : String
  isVerifying : Bool
  step : Nat
  now : Nat
  timers : List Timer
deriving DecidableEq

/-- The state right after mount (App.jsx lines 182, 194-195, 328-330). -/
def initState : SystemState :=
  { locations := LOCATIONS
    selectedId := none
    balance := INITIAL_BALANCE
    image := none
    description := ""
    isVerifying := false
    step := 0
    now := 0
    timers := [] }

/-- Derived state `selectedLocation = locations.find(l => l.id === selectedId)`
(App.jsx line 333).  With no selection the comparison never succeeds, so the
derived record is `none`. -/
def selectedLocation (s : SystemState) : Option Location :=
  match s.selectedId with
  | none => none
  | some id => s.locations.find? (fun l => l.id == id)

/-- The registry update inside `handleVerify` (App.jsx lines 337-339):
`locations.map(loc => loc.id === id ? { ...loc, status: 'fresh' } : loc)`.
This is the only status mutation in the program; an id with no matching
record leaves every element unchanged. -/
def setStatusFresh (id : Nat) (ls : List Location) : List Location :=
  ls.map (fun loc => if loc.id == id then { loc with status := Status.fresh } else loc)

/-- `handleVerify(id)` (App.jsx lines 335-342): flip the matching location to
fresh and credit the wallet by `BOUNTY_REWARD`, unconditionally. -/
def handleVerify (id : Nat) (s : SystemState) : SystemState :=
  { s with
    locations := setStatusFresh id s.locations
    balance := s.balance + BOUNTY_REWARD }

/-- Run one scheduled callback body (App.jsx lines 206-216).  The completion
callback calls `onVerify` (= `handleVerify`) on the captured id, then clears
`isVerifying`, resets the form and sets `step` back to 0. -/
def applyAction (a : TimerAction) (s : SystemState) : SystemState :=
  match a with
  | TimerAction.setStep2 => { s with step := 2 }
  | TimerAction.setStep3 => { s with step := 3 }
  | TimerAction.finish id =>
      { handleVerify id s with
        isVerifying := false
        image := none
        description := ""
        step := 0 }

/-- The submit intent, as the running program processes it.  The form that
raises it exists only while the panel is rendered for a selected location
whose status is stale and no verification is in flight (App.jsx lines 219,
254); `handleSubmit` itself then rejects a submission without an image
(line 199).  When all guards pass it sets `isVerifying` and `step := 1` and
schedules the three callbacks at 1500, 3000 and 4000 ms from now, the last
one capturing the selected location's id (lines 201-216). -/
def handleSubmit (s : SystemState) : SystemState :=
  match selectedLocation s with
  | none => s
  | some loc =>
      if loc.status = Status.stale ∧ s.isVerifying = false then
        match s.image with
        | none => s
        | some _ =>
            { s with
              isVerifying := true
              step := 1
              timers := s.timers ++
                [ ⟨s.now + 1500, TimerAction.setStep2⟩,
                  ⟨s.now + 3000, TimerAction.setStep3⟩,
                  ⟨s.now + 4000, TimerAction.finish loc.id⟩ ] }
      else s

/-- One atomic event-loop turn: a user intent (beacon click, panel close,
file attach, note edit, form submit) or one scheduled callback body. -/
inductive Op where
  | select (id : Nat)
  | close
  | attachImage (name : String)
  | setNote (text : String)
  | submit
  | timer (a : TimerAction)
deriving DecidableEq

/-- Dispatch of one event-loop turn onto the state.
`select` is the beacon click `setSelectedId(loc.id)` (App.jsx line 396),
`close` is `setSelectedId(null)` (line 362), `attachImage` is
`handleFileChange` with a chosen file (lines 184-188), `setNote` is
`handleDescriptionChange` (lines 190-192). -/
def applyOp (op : Op) (s : SystemState) : SystemState :=
  match op with
  | Op.select id => { s with selectedId := some id }
  | Op.close => { s with selectedId := none }
  | Op.attachImage n => { s with image := some n }
  | Op.setNote t => { s with description := t }
  | Op.submit => handleSubmit s
  | Op.timer a => applyAction a s

/-- Advance the wall clock to `t` milliseconds: every pending callback whose
deadline is ≤ `t` fires, in queue order (the queue order is the scheduling
order, and `handleSubmit` schedules with increasing delays); the rest stay
pending. -/
def advanceTo (t : Nat) (s : SystemState) : SystemState :=
  let due := s.timers.filter (fun tm => tm.fireAt ≤ t)
  let rest := s.timers.filter (fun tm => ¬ (tm.fireAt ≤ t))
  let s1 := due.foldl (fun acc tm => applyAction tm.action acc) s
  { s1 with timers := rest, now := t }

/-- The spec's verification phase, the reading of `step`
(App.jsx line 195: 0 Idle, 1 Scanning, 2 Cross-Referencing, 3 Verdict). -/
inductive Phase where
  | idle
  | scanning
  | crossReferencing
  | verdict
deriving DecidableEq

/-- Phase of the verification state machine, derived from `step`. -/
def phase (s : SystemState) : Phase :=
  match s.step with
  | 0 => Phase.idle
  | 1 => Phase.scanning
  | 2 => Phase.crossReferencing
  | _ => Phase.verdict

/-- Status of the location with the given id, as the registry records it. -/
def statusOf (s : SystemState) (id : Nat) : Option Status :=
  (s.locations.find? (fun l => l.id == id)).map Location.status

/-- Per-location frame relation: identity, name, position and category are
preserved, and the only status change a step may make is stale to fresh. -/
def locFrame (a b : Location) : Prop :=
  b.id = a.id ∧ b.name = a.name ∧ b.position = a.position ∧ b.type = a.type ∧
  (b.status = a.status ∨ (a.status = Status.stale ∧ b.status = Status.fresh))

/-! ## Helper lemmas about the registry update -/

/-- `setStatusFresh` commutes with lookup by the same id: the record found is
the original one with its status forced to fresh. -/
theorem find?_setStatusFresh (ls : List Location) (id : Nat) (L : Location)
    (h : ls.find? (fun l => l.id == id) = some L) :
    (setStatusFresh id ls).find? (fun l => l.id == id)
      = some { L with status := Status.fresh } := by
  induction ls with
  | nil => simp [List.find?] at h
  | cons hd tl ih =>
    simp only [setStatusFresh, List.map_cons]
    by_cases hid : (hd.id == id) = true
    · have h1 : List.find? (fun l => l.id == id) (hd :: tl) = some hd :=
        List.find?_cons_of_pos tl hid
      rw [h1] at h
      injection h with h
      subst h
      rw [if_pos hid]
      exact List.find?_cons_of_pos _ hid
    · have h1 : List.find? (fun l => l.id == id) (hd :: tl)
          = List.find? (fun l => l.id == id) tl :=
        List.find?_cons_of_neg tl hid
      rw [h1] at h
      have h2 : List.find? (fun l => l.id == id) (hd :: setStatusFresh id tl)
          = List.find? (fun l => l.id == id) (setStatusFresh id tl) :=
        List.find?_cons_of_neg _ hid
      rw [if_neg hid]
      exact h2.trans (ih h)

/-- `setStatusFresh` with an id matching no record changes nothing. -/
theorem setStatusFresh_not_found (ls : List Location) (id : Nat)
    (h : ∀ l ∈ ls, l.id ≠ id) : setStatusFresh id ls = ls := by
  induction ls with
  | nil => rfl
  | cons hd tl ih =>
    have hb : (hd.id == id) = false :=
      beq_eq_false_iff_ne.mpr (h hd (List.mem_cons_self hd tl))
    simp only [setStatusFresh, List.map_cons]
    rw [if_neg (by simp [hb])]
    exact congrArg (hd :: ·) (ih (fun l hl => h l (List.mem_cons_of_mem hd hl)))

/-- Lookup by an id matching no record in the list yields nothing. -/
theorem find?_not_found (ls : List Location) (id : Nat)
    (h : ∀ l ∈ ls, l.id ≠ id) : ls.find? (fun l => l.id == id) = none := by
  apply List.find?_eq_none.mpr
  intro l hl
  simp [h l hl]

/-! ## Frame and monotonicity helper lemmas -/

theorem locFrame_refl (l : Location) : locFrame l l :=
  ⟨rfl, rfl, rfl, rfl, Or.inl rfl⟩

theorem locFrame_trans {a b c : Location}
    (h1 : locFrame a b) (h2 : locFrame b c) : locFrame a c := by
  obtain ⟨i1, n1, p1, t1, s1⟩ := h1
  obtain ⟨i2, n2, p2, t2, s2⟩ := h2
  refine ⟨i2.trans i1, n2.trans n1, p2.trans p1, t2.trans t1, ?_⟩
  rcases s1 with h | ⟨ha, hb⟩ <;> rcases s2 with h' | ⟨ha', hb'⟩
  · exact Or.inl (h'.trans h)
  · exact Or.inr ⟨by rw [← h]; exact ha', hb'⟩
  · exact Or.inr ⟨ha, h'.trans hb⟩
  · exact Or.inr ⟨ha, hb'⟩

theorem forall2_locFrame_refl (ls : List Location) : List.Forall₂ locFrame ls ls := by
  induction ls with
  | nil => exact List.Forall₂.nil
  | cons hd tl ih => exact List.Forall₂.cons (locFrame_refl hd) ih

theorem forall2_locFrame_trans {l1 l2 l3 : List Location}
    (h1 : List.Forall₂ locFrame l1 l2) (h2 : List.Forall₂ locFrame l2 l3) :
    List.Forall₂ locFrame l1 l3 := by
  induction h1 generalizing l3 with
  | nil => cases h2; exact List.Forall₂.nil
  | cons ha _hb ih =>
    cases h2 with
    | cons hc hd => exact List.Forall₂.cons (locFrame_trans ha hc) (ih hd)

theorem forall2_setStatusFresh (id : Nat) (ls : List Location) :
    List.Forall₂ locFrame ls (setStatusFresh id ls) := by
  induction ls with
  | nil => exact List.Forall₂.nil
  | cons hd tl ih =>
    simp only [setStatusFresh, List.map_cons]
    refine List.Forall₂.cons ?_ ih
    by_cases hid : (hd.id == id) = true
    · rw [if_pos hid]
      refine ⟨rfl, rfl, rfl, rfl, ?_⟩
      cases hst : hd.status with
      | fresh => exact Or.inl rfl
      | stale => exact Or.inr ⟨rfl, rfl⟩
    · rw [if_neg hid]
      exact locFrame_refl hd

theorem frame_applyAction (a : TimerAction) (s : SystemState) :
    List.Forall₂ locFrame s.locations ((applyAction a s).locations) := by
  cases a with
  | setStep2 => exact forall2_locFrame_refl s.locations
  | setStep3 => exact forall2_locFrame_refl s.locations
  | finish id => exact forall2_setStatusFresh id s.locations

theorem frame_foldl (ts : List Timer) (s : SystemState) :
    List.Forall₂ locFrame s.locations
      ((ts.foldl (fun acc tm => applyAction tm.action acc) s).locations) := by
  induction ts generalizing s with
  | nil => exact forall2_locFrame_refl s.locations
  | cons hd tl ih =>
    exact forall2_locFrame_trans (frame_applyAction hd.action s)
      (ih (applyAction hd.action s))

/-- `handleSubmit` never touches the registry or the wallet. -/
theorem handleSubmit_keeps_registry_wallet (s : SystemState) :
    (handleSubmit s).locations = s.locations ∧ (handleSubmit s).balance = s.balance := by
  unfold handleSubmit
  split
  · exact ⟨rfl, rfl⟩
  · split
    · split
      · exact ⟨rfl, rfl⟩
      · exact ⟨rfl, rfl⟩
    · exact ⟨rfl, rfl⟩

theorem balance_applyAction_le (a : TimerAction) (s : SystemState) :
    s.balance ≤ (applyAction a s).balance := by
  cases a with
  | setStep2 => exact le_refl _
  | setStep3 => exact le_refl _
  | finish id =>
    show s.balance ≤ s.balance + BOUNTY_REWARD
    exact le_add_of_nonneg_right (by norm_num [BOUNTY_REWARD])

theorem balance_foldl_le (ts : List Timer) (s : SystemState) :
    s.balance ≤ (ts.foldl (fun acc tm => applyAction tm.action acc) s).balance := by
  induction ts generalizing s with
  | nil => exact le_refl _
  | cons hd tl ih =>
    exact le_trans (balance_applyAction_le hd.action s) (ih _)

/-! ## Claim theorems -/

/-- C3: submitting a bounty with no evidence image attached is a silent
no-op: the whole state is unchanged (registry, balance, selection, form,
phase, timers), and in particular the phase does not change. -/
theorem c3_submit_without_image (s : SystemState) (h : s.image = none) :
    applyOp Op.submit s = s ∧ phase (applyOp Op.submit s) = phase s := by
  have hs : handleSubmit s = s := by
    unfold handleSubmit
    cases hsel : selectedLocation s with
    | none => rfl
    | some loc => simp [h]
  refine ⟨hs, ?_⟩
  show phase (handleSubmit s) = phase s
  rw [hs]

/-- C3 witness: in the freshly mounted state there is no image, and
submitting changes nothing. -/
theorem c3_submit_without_image_witness :
    initState.image = none ∧
    (applyOp Op.submit initState = initState ∧
      phase (applyOp Op.submit initState) = phase initState) :=
  ⟨rfl, c3_submit_without_image initState rfl⟩

/-- From a derived selection we can name the raw selected id and its lookup. -/
theorem selectedLocation_elim (s : SystemState) (L : Location)
    (hsel : selectedLocation s = some L) :
    s.locations.find? (fun l => l.id == L.id) = some L := by
  cases hsid : s.selectedId with
  | none => simp [selectedLocation, hsid] at hsel
  | some i =>
    have hfind : s.locations.find? (fun l => l.id == i) = some L := by
      simpa [selectedLocation, hsid] using hsel
    have hLi : L.id = i := by simpa using List.find?_some hfind
    rw [hLi]
    exact hfind

/-- A submission from a quiescent state (clock at 0, empty timer queue) on a
stale, selected location starts the session: `isVerifying` is set, `step`
moves to 1, and the three callbacks are scheduled at 1500, 3000 and 4000 ms,
the completion capturing the selected location's id. -/
theorem submit_starts_zero (s : SystemState) (L : Location) (img : String)
    (hsel : selectedLocation s = some L)
    (hst : L.status = Status.stale)
    (hver : s.isVerifying = false)
    (himg : s.image = some img)
    (hnow : s.now = 0)
    (htimers : s.timers = []) :
    applyOp Op.submit s =
      { s with
        isVerifying := true
        step := 1
        timers := [ ⟨1500, TimerAction.setStep2⟩, ⟨3000, TimerAction.setStep3⟩,
                    ⟨4000, TimerAction.finish L.id⟩ ] } := by
  show handleSubmit s = _
  simp [handleSubmit, hsel, hst, hver, himg, hnow, htimers]

/-- Selection changes and panel closes touch nothing but the stored
selection: registry, wallet, form, machine step, clock and timer queue all
survive any sequence of them. -/
theorem selOps_frame (ops : List Op) :
    ∀ s : SystemState, (∀ op ∈ ops, op = Op.close ∨ ∃ j, op = Op.select j) →
      (ops.foldl (fun a op => applyOp op a) s).locations = s.locations ∧
      (ops.foldl (fun a op => applyOp op a) s).balance = s.balance ∧
      (ops.foldl (fun a op => applyOp op a) s).image = s.image ∧
      (ops.foldl (fun a op => applyOp op a) s).description = s.description ∧
      (ops.foldl (fun a op => applyOp op a) s).isVerifying = s.isVerifying ∧
      (ops.foldl (fun a op => applyOp op a) s).step = s.step ∧
      (ops.foldl (fun a op => applyOp op a) s).now = s.now ∧
      (ops.foldl (fun a op => applyOp op a) s).timers = s.timers := by
  induction ops with
  | nil =>
    intro s _
    exact ⟨rfl, rfl, rfl, rfl, rfl, rfl, rfl, rfl⟩
  | cons hd tl ih =>
    intro s hops
    have htl : ∀ op ∈ tl, op = Op.close ∨ ∃ j, op = Op.select j :=
      fun op hop => hops op (List.mem_cons_of_mem hd hop)
    rcases hops hd (List.mem_cons_self hd tl) with hc | ⟨j, hj⟩
    · subst hc
      exact ih (applyOp Op.close s) htl
    · subst hj
      exact ih (applyOp (Op.select j) s) htl

/-- C1: a verification session started on a stale, selected location `L` with
previous balance `B` runs the scripted timeline: at its start (time 0) the
phase is Scanning; at 1500 ms it is Cross-Referencing; at 3000 ms it is
Verdict; at 4000 ms the phase is back to Idle, the registry records `L` as
fresh, the balance is `B + BOUNTY_REWARD`, and the evidence image and the
observation note are cleared. -/
theorem c1_verification_timeline (s : SystemState) (L : Location) (img : String)
    (hsel : selectedLocation s = some L)
    (hst : L.status = Status.stale)
    (hver : s.isVerifying = false)
    (himg : s.image = some img)
    (hnow : s.now = 0)
    (htimers : s.timers = []) :
    phase (applyOp Op.submit s) = Phase.scanning ∧
    phase (advanceTo 1500 (applyOp Op.submit s)) = Phase.crossReferencing ∧
    phase (advanceTo 3000 (advanceTo 1500 (applyOp Op.submit s))) = Phase.verdict ∧
    phase (advanceTo 4000 (advanceTo 3000 (advanceTo 1500 (applyOp Op.submit s))))
      = Phase.idle ∧
    statusOf (advanceTo 4000 (advanceTo 3000 (advanceTo 1500 (applyOp Op.submit s)))) L.id
      = some Status.fresh ∧
    (advanceTo 4000 (advanceTo 3000 (advanceTo 1500 (applyOp Op.submit s)))).balance
      = s.balance + BOUNTY_REWARD ∧
    (advanceTo 4000 (advanceTo 3000 (advanceTo 1500 (applyOp Op.submit s)))).image
      = none ∧
    (advanceTo 4000 (advanceTo 3000 (advanceTo 1500 (applyOp Op.submit s)))).description
      = "" := by
  have h1 := submit_starts_zero s L img hsel hst hver himg hnow htimers
  have h2 : advanceTo 1500 (applyOp Op.submit s) =
      { s with
        isVerifying := true
        step := 2
        now := 1500
        timers := [ ⟨3000, TimerAction.setStep3⟩, ⟨4000, TimerAction.finish L.id⟩ ] } := by
    rw [h1]; rfl
  have h3 : advanceTo 3000 (advanceTo 1500 (applyOp Op.submit s)) =
      { s with
        isVerifying := true
        step := 3
        now := 3000
        timers := [ ⟨4000, TimerAction.finish L.id⟩ ] } := by
    rw [h2]; rfl
  have h4 : advanceTo 4000 (advanceTo 3000 (advanceTo 1500 (applyOp Op.submit s))) =
      { s with
        locations := setStatusFresh L.id s.locations
        balance := s.balance + BOUNTY_REWARD
        image := none
        description := ""
        isVerifying := false
        step := 0
        now := 4000
        timers := [] } := by
    rw [h3]; rfl
  have hfind := selectedLocation_elim s L hsel
  refine ⟨by rw [h1]; rfl, by rw [h2]; rfl, by rw [h3]; rfl, by rw [h4]; rfl,
    ?_, by rw [h4], by rw [h4], by rw [h4]⟩
  rw [h4]
  show ((setStatusFresh L.id s.locations).find? (fun l => l.id == L.id)).map Location.status
    = some Status.fresh
  rw [find?_setStatusFresh s.locations L.id L hfind]
  rfl

/-- C1 witness: from the initial state with the Grand Cafe (id 1, the seeded
stale location) selected and an image attached, the timeline runs as proved. -/
theorem c1_verification_timeline_witness :
    (selectedLocation
        { initState with selectedId := some 1, image := some "photo.jpg" }
      = some ⟨1, "The Grand Cafe", (0, 1/2, 0), Status.stale, "cafe"⟩ ∧
      (⟨1, "The Grand Cafe", (0, 1/2, 0), Status.stale, "cafe"⟩ : Location).status
        = Status.stale ∧
      ({ initState with selectedId := some 1, image := some "photo.jpg"
        } : SystemState).isVerifying = false) ∧
    phase (applyOp Op.submit
        { initState with selectedId := some 1, image := some "photo.jpg" })
      = Phase.scanning ∧
    statusOf (advanceTo 4000 (advanceTo 3000 (advanceTo 1500 (applyOp Op.submit
        { initState with selectedId := some 1, image := some "photo.jpg" })))) 1
      = some Status.fresh ∧
    (advanceTo 4000 (advanceTo 3000 (advanceTo 1500 (applyOp Op.submit
        { initState with selectedId := some 1, image := some "photo.jpg" })))).balance
      = INITIAL_BALANCE + BOUNTY_REWARD := by
  have h := c1_verification_timeline
    { initState with selectedId := some 1, image := some "photo.jpg" }
    ⟨1, "The Grand Cafe", (0, 1/2, 0), Status.stale, "cafe"⟩ "photo.jpg"
    rfl rfl rfl rfl rfl rfl
  exact ⟨⟨rfl, rfl, rfl⟩, h.1, h.2.2.2.2.1, h.2.2.2.2.2.1⟩

/-- C4: closing the panel or changing the selection while a verification
session is in flight cancels nothing: the scheduled callbacks survive those
operations untouched, and at 4000 ms the completion still fires against the
target id captured when the session started, flipping that location to fresh
and crediting the reward. -/
theorem c4_no_cancellation (s : SystemState) (L : Location) (img : String)
    (ops : List Op)
    (hops : ∀ op ∈ ops, op = Op.close ∨ ∃ j, op = Op.select j)
    (hsel : selectedLocation s = some L)
    (hst : L.status = Status.stale)
    (hver : s.isVerifying = false)
    (himg : s.image = some img)
    (hnow : s.now = 0)
    (htimers : s.timers = []) :
    (ops.foldl (fun a op => applyOp op a) (applyOp Op.submit s)).timers
      = (applyOp Op.submit s).timers ∧
    statusOf
        (advanceTo 4000 (ops.foldl (fun a op => applyOp op a) (applyOp Op.submit s)))
        L.id
      = some Status.fresh ∧
    (advanceTo 4000 (ops.foldl (fun a op => applyOp op a) (applyOp Op.submit s))).balance
      = s.balance + BOUNTY_REWARD := by
  have h1 := submit_starts_zero s L img hsel hst hver himg hnow htimers
  have hframe := selOps_frame ops (applyOp Op.submit s) hops
  have htq : (ops.foldl (fun a op => applyOp op a) (applyOp Op.submit s)).timers
      = [ ⟨1500, TimerAction.setStep2⟩, ⟨3000, TimerAction.setStep3⟩,
          ⟨4000, TimerAction.finish L.id⟩ ] :=
    (hframe.2.2.2.2.2.2.2).trans (by rw [h1])
  have hloc : (ops.foldl (fun a op => applyOp op a) (applyOp Op.submit s)).locations
      = s.locations :=
    hframe.1.trans (by rw [h1])
  have hbal : (ops.foldl (fun a op => applyOp op a) (applyOp Op.submit s)).balance
      = s.balance :=
    hframe.2.1.trans (by rw [h1])
  have hadv : advanceTo 4000 (ops.foldl (fun a op => applyOp op a) (applyOp Op.submit s)) =
      { ops.foldl (fun a op => applyOp op a) (applyOp Op.submit s) with
        locations := setStatusFresh L.id
          (ops.foldl (fun a op => applyOp op a) (applyOp Op.submit s)).locations
        balance := (ops.foldl (fun a op => applyOp op a) (applyOp Op.submit s)).balance
          + BOUNTY_REWARD
        image := none
        description := ""
        isVerifying := false
        step := 0
        now := 4000
        timers := [] } := by
    simp only [advanceTo, htq]
    rfl
  refine ⟨hframe.2.2.2.2.2.2.2, ?_, ?_⟩
  · rw [hadv]
    show ((setStatusFresh L.id
        (ops.foldl (fun a op => applyOp op a) (applyOp Op.submit s)).locations).find?
          (fun l => l.id == L.id)).map Location.status = some Status.fresh
    rw [hloc, find?_setStatusFresh s.locations L.id L (selectedLocation_elim s L hsel)]
    rfl
  · rw [hadv]
    show (ops.foldl (fun a op => applyOp op a) (applyOp Op.submit s)).balance
        + BOUNTY_REWARD = s.balance + BOUNTY_REWARD
    rw [hbal]

/-- C4 witness: start the session with the Grand Cafe selected, then close
the panel; the completion at 4000 ms still marks location 1 fresh and pays
the reward. -/
theorem c4_no_cancellation_witness :
    statusOf
        (advanceTo 4000 ([Op.close].foldl (fun a op => applyOp op a)
          (applyOp Op.submit
            { initState with selectedId := some 1, image := some "photo.jpg" }))) 1
      = some Status.fresh ∧
    (advanceTo 4000 ([Op.close].foldl (fun a op => applyOp op a)
        (applyOp Op.submit
          { initState with selectedId := some 1, image := some "photo.jpg" }))).balance
      = INITIAL_BALANCE + BOUNTY_REWARD := by
  have h := c4_no_cancellation
    { initState with selectedId := some 1, image := some "photo.jpg" }
    ⟨1, "The Grand Cafe", (0, 1/2, 0), Status.stale, "cafe"⟩ "photo.jpg"
    [Op.close] (fun op hop => Or.inl (List.mem_singleton.mp hop))
    rfl rfl rfl rfl rfl rfl
  exact ⟨h.2.1, h.2.2⟩

/-- C2: with the machine Idle (no session in flight), a submission starts a
verification session — the phase moves to Scanning and `isVerifying` is set —
exactly when the form carries a non-empty evidence image and the currently
selected location's status is stale; in every other situation (no image, no
selection, or a fresh target) the submission changes nothing at all. -/
theorem c2_entry_condition (s : SystemState)
    (hver : s.isVerifying = false) (_hstep : s.step = 0) :
    ((phase (applyOp Op.submit s) = Phase.scanning ∧
        (applyOp Op.submit s).isVerifying = true)
      ↔ (s.image ≠ none ∧
          ∃ L, selectedLocation s = some L ∧ L.status = Status.stale)) ∧
    (¬ (s.image ≠ none ∧ ∃ L, selectedLocation s = some L ∧ L.status = Status.stale)
      → applyOp Op.submit s = s) := by
  have key2 : ¬ (s.image ≠ none ∧
        ∃ L, selectedLocation s = some L ∧ L.status = Status.stale)
      → handleSubmit s = s := by
    intro hn
    unfold handleSubmit
    cases hsel : selectedLocation s with
    | none => rfl
    | some loc =>
      by_cases hst : loc.status = Status.stale
      · cases himg : s.image with
        | none => simp
        | some i => exact absurd ⟨by simp [himg], ⟨loc, hsel, hst⟩⟩ hn
      · simp [hst]
  have key1 : (s.image ≠ none ∧
        ∃ L, selectedLocation s = some L ∧ L.status = Status.stale)
      → (handleSubmit s).step = 1 ∧ (handleSubmit s).isVerifying = true := by
    rintro ⟨himg, L, hsel, hst⟩
    cases himgv : s.image with
    | none => exact absurd himgv himg
    | some i => simp [handleSubmit, hsel, hst, hver, himgv]
  constructor
  · constructor
    · rintro ⟨hph, hverif⟩
      by_contra hn
      have hverif2 : (handleSubmit s).isVerifying = true := hverif
      rw [key2 hn, hver] at hverif2
      exact Bool.noConfusion hverif2
    · intro hc
      obtain ⟨h1, h2⟩ := key1 hc
      refine ⟨?_, h2⟩
      show phase (handleSubmit s) = Phase.scanning
      simp [phase, h1]
  · exact key2

/-- C2 witness: the initial state is Idle; it has no image attached, so the
entry condition is false and the submission is a no-op, as the biconditional
demands. -/
theorem c2_entry_condition_witness :
    (initState.isVerifying = false ∧ initState.step = 0) ∧
    (((phase (applyOp Op.submit initState) = Phase.scanning ∧
        (applyOp Op.submit initState).isVerifying = true)
      ↔ (initState.image ≠ none ∧
          ∃ L, selectedLocation initState = some L ∧ L.status = Status.stale)) ∧
    (¬ (initState.image ≠ none ∧
          ∃ L, selectedLocation initState = some L ∧ L.status = Status.stale)
      → applyOp Op.submit initState = initState)) :=
  ⟨⟨rfl, rfl⟩, c2_entry_condition initState rfl rfl⟩

/-- C5: the completion callback `handleVerify id` credits the wallet by the
fixed reward for every id, unconditionally — also when the id matches no
record (then the registry part is a no-op) and when the target is already
fresh (crediting is not conditioned on an actual stale-to-fresh flip). -/
theorem c5_unconditional_credit (s : SystemState) (id : Nat) :
    (handleVerify id s).balance = s.balance + BOUNTY_REWARD ∧
    ((∀ l ∈ s.locations, l.id ≠ id) → (handleVerify id s).locations = s.locations) :=
  ⟨rfl, fun h => setStatusFresh_not_found s.locations id h⟩

/-- C5 witness: verifying the unknown id 99 in the initial state credits the
wallet and leaves the registry untouched. -/
theorem c5_unconditional_credit_witness :
    (handleVerify 99 initState).balance = INITIAL_BALANCE + BOUNTY_REWARD ∧
    (handleVerify 99 initState).locations = initState.locations :=
  ⟨(c5_unconditional_credit initState 99).1,
    (c5_unconditional_credit initState 99).2 (by decide)⟩

/-- C6: the status update with an id matching no record in the registry is a
silent no-op on the registry: the location list is unchanged and no error is
produced (the operation is total). -/
theorem c6_setStatus_unknown_id (s : SystemState) (id : Nat)
    (h : ∀ l ∈ s.locations, l.id ≠ id) :
    setStatusFresh id s.locations = s.locations ∧
    (handleVerify id s).locations = s.locations :=
  ⟨setStatusFresh_not_found s.locations id h,
    setStatusFresh_not_found s.locations id h⟩

/-- C6 witness: id 99 matches no seeded location, and updating it leaves the
seed registry exactly as it was. -/
theorem c6_setStatus_unknown_id_witness :
    (∀ l ∈ initState.locations, l.id ≠ 99) ∧
    (setStatusFresh 99 initState.locations = initState.locations ∧
      (handleVerify 99 initState).locations = initState.locations) :=
  ⟨by decide, c6_setStatus_unknown_id initState 99 (by decide)⟩

/-- C7 counterexample: selecting an id absent from the registry is NOT a
no-op.  From the state with location 1 selected, selecting the unknown id 99
changes the stored selection, and the derived current location changes from
the Grand Cafe record to none. -/
theorem c7_counterexample :
    applyOp (Op.select 99) { initState with selectedId := some 1 }
        ≠ { initState with selectedId := some 1 } ∧
    selectedLocation (applyOp (Op.select 99) { initState with selectedId := some 1 })
        ≠ selectedLocation { initState with selectedId := some 1 } := by
  constructor
  · intro h
    have h1 := congrArg SystemState.selectedId h
    simp [applyOp] at h1
  · intro h
    simp [applyOp, selectedLocation, initState, LOCATIONS, List.find?] at h

/-- C7 (amended): selecting an id absent from the registry stores that id as
the selection (it is not ignored); afterwards the derived current location is
explicitly none, the lookup is total (it cannot crash), no error is surfaced,
and the registry and balance are untouched. -/
theorem c7_select_unknown_id (s : SystemState) (id : Nat)
    (h : ∀ l ∈ s.locations, l.id ≠ id) :
    (applyOp (Op.select id) s).selectedId = some id ∧
    selectedLocation (applyOp (Op.select id) s) = none ∧
    (applyOp (Op.select id) s).locations = s.locations ∧
    (applyOp (Op.select id) s).balance = s.balance := by
  refine ⟨rfl, ?_, rfl, rfl⟩
  show s.locations.find? (fun l => l.id == id) = none
  exact find?_not_found s.locations id h

/-- C7 witness: selecting the unknown id 99 in the initial state. -/
theorem c7_select_unknown_id_witness :
    (∀ l ∈ initState.locations, l.id ≠ 99) ∧
    ((applyOp (Op.select 99) initState).selectedId = some 99 ∧
      selectedLocation (applyOp (Op.select 99) initState) = none ∧
      (applyOp (Op.select 99) initState).locations = initState.locations ∧
      (applyOp (Op.select 99) initState).balance = initState.balance) :=
  ⟨by decide, c7_select_unknown_id initState 99 (by decide)⟩

/-- C8: every event-loop turn, and every passage of time, keeps the same
registry entries in seed order: no record is created or deleted, ids, names,
positions and categories never change, and the only status mutation is a
flip to fresh (a fresh record never becomes stale again). -/
theorem c8_registry_frame (s : SystemState) :
    (∀ op : Op, List.Forall₂ locFrame s.locations ((applyOp op s).locations)) ∧
    (∀ t : Nat, List.Forall₂ locFrame s.locations ((advanceTo t s).locations)) := by
  constructor
  · intro op
    cases op with
    | select id => exact forall2_locFrame_refl s.locations
    | close => exact forall2_locFrame_refl s.locations
    | attachImage n => exact forall2_locFrame_refl s.locations
    | setNote t => exact forall2_locFrame_refl s.locations
    | submit =>
      show List.Forall₂ locFrame s.locations ((handleSubmit s).locations)
      rw [(handleSubmit_keeps_registry_wallet s).1]
      exact forall2_locFrame_refl s.locations
    | timer a => exact frame_applyAction a s
  · intro t
    exact frame_foldl _ s

/-- C9: the wallet is never debited — each event-loop turn leaves the balance
unchanged or credits exactly the fixed positive reward, and letting any
amount of time pass can only keep or grow the balance. -/
theorem c9_wallet_monotone (s : SystemState) :
    0 < BOUNTY_REWARD ∧
    (∀ op : Op, (applyOp op s).balance = s.balance ∨
        (applyOp op s).balance = s.balance + BOUNTY_REWARD) ∧
    (∀ t : Nat, s.balance ≤ (advanceTo t s).balance) := by
  refine ⟨by norm_num [BOUNTY_REWARD], ?_, ?_⟩
  · intro op
    cases op with
    | select id => exact Or.inl rfl
    | close => exact Or.inl rfl
    | attachImage n => exact Or.inl rfl
    | setNote t => exact Or.inl rfl
    | submit => exact Or.inl (handleSubmit_keeps_registry_wallet s).2
    | timer a =>
      cases a with
      | setStep2 => exact Or.inl rfl
      | setStep3 => exact Or.inl rfl
      | finish id => exact Or.inr rfl
  · intro t
    exact balance_foldl_le _ s

/-- C10: selecting the same id twice in a row is the same as selecting it
once — the whole state agrees, and so does the derived current location. -/
theorem c10_select_idempotent (s : SystemState) (id : Nat) :
    applyOp (Op.select id) (applyOp (Op.select id) s) = applyOp (Op.select id) s ∧
    selectedLocation (applyOp (Op.select id) (applyOp (Op.select id) s))
      = selectedLocation (applyOp (Op.select id) s) :=
  ⟨rfl, rfl⟩

end WePlace
